import Mathlib

/-!
Verification of the proximity-service repository: a shallow embedding of the
domain functions (`findNearby`, consent records) and of the ephemeral SSE
broadcast layer (`channels : Map<string, Set<SSEController>>` with its
publish / subscribe / cancel operations), together with theorems settling
the specification claims about them.

Modelling conventions:
* JS strings and ISO timestamps are `String`; `new Date().toISOString()` is
  passed in as an explicit `now` argument.
* JS numbers are `ℚ` (the floating-point haversine `calculateDistance` is
  transcendental and is abstracted as a `dist` argument where needed).
* A JS `Map` is an association list with unique keys in insertion order; a
  JS `Set` is a duplicate-free list in insertion order.
* An `SSEController` is an opaque identifier `ControllerId`; whether its
  `enqueue` succeeds is an environment parameter `okSink`; every enqueue
  attempt is recorded in a push log `List (ControllerId × Frame)`.
-/

namespace Proximity

/-- Geographic point (source `GeoPoint`: numeric `lat`, `lng`). -/
structure GeoPoint where
  lat : ℚ
  lng : ℚ
deriving DecidableEq, Repr

/-- Presence classification (source `PresenceStatus`; the `unknown` variant
is never produced by the embedded functions). -/
inductive PresenceStatus where
  | nearby
  | in_range
  | out_of_range
  | unknown
deriving DecidableEq, Repr

/-- JavaScript `Math.round`: round to the nearest integer, ties toward
positive infinity. -/
def jsRound (x : ℚ) : Int := ⌊x + 1/2⌋

/-- Source `formatDistance`: below 1000 m the rounded meter count with an
`m` suffix, otherwise kilometres via `toFixed(1)` (one decimal, ties away
from the smaller value) with a `km` suffix. -/
def formatDistance (meters : ℚ) : String :=
  if meters < 1000 then toString (jsRound meters) ++ "m"
  else
    let t : Int := jsRound (meters / 100)
    toString (t / 10) ++ "." ++ toString (t % 10) ++ "km"

/-- Source `classifyDistance` with its two threshold arguments. -/
def classifyDistance (distanceMeters bleRange maxRange : ℚ) : PresenceStatus :=
  if distanceMeters ≤ bleRange then .nearby
  else if distanceMeters ≤ maxRange then .in_range
  else .out_of_range

/-- Source `ProfileLocation`: one nearby-search candidate. -/
structure ProfileLocation where
  profileId : String
  location : GeoPoint
deriving DecidableEq, Repr

/-- Source `PresenceRecord`: one row of a nearby-search result. -/
structure PresenceRecord where
  profileId : String
  location : GeoPoint
  distanceMeters : Int
  distanceLabel : String
  status : PresenceStatus
deriving DecidableEq, Repr

/-- The record built for one candidate in the `map` step of `findNearby`:
the candidate's identity and point, the rounded distance, the label and the
classification, all computed from one distance evaluation. -/
def mkPresenceRecord (dist : GeoPoint → GeoPoint → ℚ) (myPosition : GeoPoint)
    (bleRangeMeters maxRadiusMeters : ℚ) (c : ProfileLocation) : PresenceRecord :=
  let d := dist myPosition c.location
  { profileId := c.profileId
    location := c.location
    distanceMeters := jsRound d
    distanceLabel := formatDistance d
    status := classifyDistance d bleRangeMeters maxRadiusMeters }

/-- Source `findNearby`: map every candidate to its `PresenceRecord`, keep
those whose rounded distance is within the radius, and stable-sort by
`distanceMeters` ascending (the JS comparator sort is stable). The
floating-point haversine `calculateDistance` the source calls is abstracted
as the `dist` argument. -/
def findNearby (dist : GeoPoint → GeoPoint → ℚ) (myPosition : GeoPoint)
    (candidates : List ProfileLocation) (maxRadiusMeters bleRangeMeters : ℚ) :
    List PresenceRecord :=
  ((candidates.map (mkPresenceRecord dist myPosition bleRangeMeters maxRadiusMeters)).filter
      (fun r => (r.distanceMeters : ℚ) ≤ maxRadiusMeters)).mergeSort
    (fun a b => a.distanceMeters ≤ b.distanceMeters)

/-- JS truthiness of an optional string: `undefined` and `""` are falsy. -/
def jsTruthyStr (s : Option String) : Bool :=
  match s with
  | none => false
  | some s => s != ""

/-- JS truthiness of an optional number: `undefined` and `0` are falsy. -/
def jsTruthyNum (x : Option ℚ) : Bool :=
  match x with
  | none => false
  | some q => q != 0

/-- Source `LocationConsent`; `revokedAt` is optional. -/
structure LocationConsent where
  profileId : String
  locationTracking : Bool
  bleDiscovery : Bool
  grantedAt : String
  revokedAt : Option String
deriving DecidableEq, Repr

/-- Source `createConsent` (the `??` defaults are `Option.getD`); `now`
stands for `new Date().toISOString()`. -/
def createConsent (profileId : String) (locationTracking bleDiscovery : Option Bool)
    (now : String) : LocationConsent :=
  { profileId
    locationTracking := locationTracking.getD false
    bleDiscovery := bleDiscovery.getD false
    grantedAt := now
    revokedAt := none }

/-- Source `isConsentValid`: a truthy `revokedAt` (present and nonempty)
invalidates, otherwise the consent is valid when either flag is set. The
`null`-consent guard of the source is not modelled because the record is
always present here. -/
def isConsentValid (consent : LocationConsent) : Bool :=
  if jsTruthyStr consent.revokedAt then false
  else consent.locationTracking || consent.bleDiscovery

/-- Source `revokeConsent`: clear both flags and stamp `revokedAt`. -/
def revokeConsent (consent : LocationConsent) (now : String) : LocationConsent :=
  { consent with
    locationTracking := false
    bleDiscovery := false
    revokedAt := some now }

/-- Opaque handle of one `SSEController` (a subscriber connection sink). -/
abbrev ControllerId := Nat

/-- The raw `location` object of a broadcast request: either coordinate may
be absent, and `0` is JS-falsy, which the handler's validation inspects. -/
structure RawLocation where
  lat : Option ℚ
  lng : Option ℚ
deriving DecidableEq, Repr

/-- The JSON body of POST `/api/proximity/broadcast`; every field may be
absent in the raw request. The opaque `metadata` bag is never inspected by
any embedded code path and is omitted. -/
structure BroadcastBody where
  channelId : Option String
  profileId : Option String
  location : Option RawLocation
deriving DecidableEq, Repr

/-- Source `BroadcastEvent` (sans the uninspected `metadata` bag). -/
structure BroadcastEvent where
  profileId : String
  location : GeoPoint
  timestamp : String
deriving DecidableEq, Repr

/-- One SSE frame pushed to a subscriber, modelling the encoded bytes of
`event: <name>` / `data: <json>`: the welcome frame (event `connected`,
payload channel id, subscriber count, timestamp) or a fan-out frame (event
`position`, payload the broadcast event JSON). -/
inductive Frame where
  | connected (channelId : String) (subscriberCount : Nat) (timestamp : String)
  | position (e : BroadcastEvent)
deriving DecidableEq, Repr

/-- The channel registry `channels : Map<string, Set<SSEController>>`. -/
abbrev Registry := List (String × List ControllerId)

/-- `Map.get`: first entry with the key, if any. -/
def lookupChannel : Registry → String → Option (List ControllerId)
  | [], _ => none
  | (k, v) :: rest, cid => if k = cid then some v else lookupChannel rest cid

/-- Replace the subscriber set stored under an existing key (the JS code
mutates the `Set` object held in the `Map` in place). -/
def setChannel : Registry → String → List ControllerId → Registry
  | [], _, _ => []
  | (k, v) :: rest, cid, subs =>
    if k = cid then (k, subs) :: rest else (k, v) :: setChannel rest cid subs

/-- `Map.delete`: drop the entry with the key, if any. -/
def removeChannel : Registry → String → Registry
  | [], _ => []
  | (k, v) :: rest, cid =>
    if k = cid then rest else (k, v) :: removeChannel rest cid

/-- Source `getOrCreateChannel`: return the registry (with an empty channel
appended when the key was absent, as `Map.set` inserts at the end) and the
channel's subscriber set. -/
def getOrCreateChannel (reg : Registry) (cid : String) :
    Registry × List ControllerId :=
  match lookupChannel reg cid with
  | some subs => (reg, subs)
  | none => (reg ++ [(cid, [])], [])

/-- JS `Set.add`: append unless already a member. -/
def setAdd (subs : List ControllerId) (c : ControllerId) : List ControllerId :=
  if c ∈ subs then subs else subs ++ [c]

/-- HTTP outcome of the broadcast endpoint: 400 with an error message, or
200 with `published: true`, the channel id and the subscriber count. -/
inductive PublishResult where
  | badRequest (error : String)
  | ok (channelId : String) (subscriberCount : Nat)
deriving DecidableEq, Repr

/-- Whether a `PublishResult` is the 400 outcome. -/
def isBadRequest : PublishResult → Bool
  | .badRequest _ => true
  | .ok _ _ => false

/-- The `BroadcastEvent` the handler builds from a validated body. -/
def broadcastEventOf (body : BroadcastBody) (now : String) : BroadcastEvent :=
  { profileId := body.profileId.getD ""
    location :=
      { lat := (body.location.bind RawLocation.lat).getD 0
        lng := (body.location.bind RawLocation.lng).getD 0 }
    timestamp := now }

/-- The fan-out loop of the broadcast handler: enqueue the one shared
encoded frame into every controller of the set, in order; a controller
whose sink rejects the push (`okSink c = false`, the `catch` branch) is
deleted from the set and the loop continues. Returns the surviving set and
the log of all enqueue attempts in order. -/
def fanout (okSink : ControllerId → Bool) (frame : Frame) :
    List ControllerId → List ControllerId × List (ControllerId × Frame)
  | [] => ([], [])
  | c :: rest =>
    let p := fanout okSink frame rest
    (if okSink c then c :: p.1 else p.1, (c, frame) :: p.2)

/-- POST `/api/proximity/broadcast`: validate with JS truthiness, look the
channel up without creating it, capture `subscriberCount` before the
fan-out, fan out when the set is nonempty. Returns the HTTP outcome, the
registry after the call, and the log of enqueue attempts. -/
def publish (okSink : ControllerId → Bool) (body : BroadcastBody) (now : String)
    (reg : Registry) : PublishResult × Registry × List (ControllerId × Frame) :=
  if !jsTruthyStr body.channelId || !jsTruthyStr body.profileId then
    (.badRequest "channelId and profileId are required", reg, [])
  else if !jsTruthyNum (body.location.bind RawLocation.lat)
      || !jsTruthyNum (body.location.bind RawLocation.lng) then
    (.badRequest "location must have lat and lng", reg, [])
  else
    let cid := body.channelId.getD ""
    match lookupChannel reg cid with
    | none => (.ok cid 0, reg, [])
    | some subs =>
      if subs.length > 0 then
        let p := fanout okSink (Frame.position (broadcastEventOf body now)) subs
        (.ok cid subs.length, setChannel reg cid p.1, p.2)
      else
        (.ok cid subs.length, reg, [])

/-- GET `/api/proximity/stream/:channelId`, the `start` callback of the
stream: `getOrCreateChannel`, add the new controller to the set, enqueue
the welcome frame into it. Returns the registry after the call and the
operation's push log — exactly the one welcome frame, pushed to the newly
created connection before it can receive any fan-out frame. -/
def subscribe (reg : Registry) (cid : String) (ctrl : ControllerId)
    (now : String) : Registry × List (ControllerId × Frame) :=
  let p := getOrCreateChannel reg cid
  let subs := setAdd p.2 ctrl
  (setChannel p.1 cid subs, [(ctrl, Frame.connected cid subs.length now)])

/-- The `cancel` callback of the subscription stream: delete the controller
from the channel's set, and when the set becomes empty delete the channel
entry from the registry. -/
def cancel (reg : Registry) (cid : String) (ctrl : ControllerId) : Registry :=
  match lookupChannel reg cid with
  | none => reg
  | some subs =>
    let subs2 := subs.erase ctrl
    if subs2.isEmpty then removeChannel reg cid else setChannel reg cid subs2

/-- GET `/api/proximity/channels`: snapshot the registry as
(channelId, subscriberCount) pairs. -/
def listChannels (reg : Registry) : List (String × Nat) :=
  reg.map (fun p => (p.1, p.2.length))

/-- The conjunction of the two validation guards of the broadcast handler:
truthy `channelId` and `profileId`, truthy `location.lat` and
`location.lng`. -/
def validBroadcastBody (body : BroadcastBody) : Bool :=
  jsTruthyStr body.channelId && jsTruthyStr body.profileId
    && jsTruthyNum (body.location.bind RawLocation.lat)
    && jsTruthyNum (body.location.bind RawLocation.lng)

/-- The fan-out loop logs one enqueue attempt, carrying the one shared
frame, for every controller of the set, in order. -/
lemma fanout_log (okSink : ControllerId → Bool) (frame : Frame) :
    ∀ l : List ControllerId, (fanout okSink frame l).2 = l.map (fun c => (c, frame))
  | [] => rfl
  | c :: rest => by simp [fanout, fanout_log okSink frame rest]

/-- The controllers surviving the fan-out loop are exactly those whose sink
accepted the push, in their original order. -/
lemma fanout_survivors (okSink : ControllerId → Bool) (frame : Frame) :
    ∀ l : List ControllerId, (fanout okSink frame l).1 = l.filter okSink
  | [] => rfl
  | c :: rest => by
    by_cases h : okSink c <;>
      simp [fanout, fanout_survivors okSink frame rest, List.filter_cons, h]

/-- Updating an existing key makes `lookupChannel` return the new value. -/
lemma lookupChannel_setChannel_self :
    ∀ (reg : Registry) (cid : String) (v : List ControllerId),
      (lookupChannel reg cid).isSome →
      lookupChannel (setChannel reg cid v) cid = some v
  | [], cid, v, h => by simp [lookupChannel] at h
  | (k, w) :: rest, cid, v, h => by
    by_cases hk : k = cid
    · simp [setChannel, lookupChannel, hk]
    · simp only [lookupChannel, if_neg hk] at h
      simp only [setChannel, if_neg hk, lookupChannel, if_neg hk]
      exact lookupChannel_setChannel_self rest cid v h

/-- A key on which `lookupChannel` fails is not among the registry keys. -/
lemma not_mem_keys_of_lookupChannel_eq_none :
    ∀ (reg : Registry) (cid : String),
      lookupChannel reg cid = none → cid ∉ reg.map Prod.fst
  | [], _, _ => by simp
  | (k, w) :: rest, cid, h => by
    by_cases hk : k = cid
    · simp [lookupChannel, hk] at h
    · simp only [lookupChannel, if_neg hk] at h
      simp only [List.map_cons, List.mem_cons, not_or]
      exact ⟨fun hc => hk hc.symm, not_mem_keys_of_lookupChannel_eq_none rest cid h⟩

/-- Appending a fresh key at the end makes `lookupChannel` find it. -/
lemma lookupChannel_append_self :
    ∀ (reg : Registry) (cid : String) (v : List ControllerId),
      lookupChannel reg cid = none →
      lookupChannel (reg ++ [(cid, v)]) cid = some v
  | [], cid, v, _ => by simp [lookupChannel]
  | (k, w) :: rest, cid, v, h => by
    by_cases hk : k = cid
    · simp [lookupChannel, hk] at h
    · simp only [lookupChannel, if_neg hk] at h
      simp only [List.cons_append, lookupChannel, if_neg hk]
      exact lookupChannel_append_self rest cid v h

/-- The enumerator lists exactly the registry's keys. -/
lemma listChannels_keys (reg : Registry) :
    (listChannels reg).map Prod.fst = reg.map Prod.fst := by
  simp [listChannels, List.map_map, Function.comp_def]

/-- The added controller is a member of the updated set. -/
lemma mem_setAdd_self (subs : List ControllerId) (ctrl : ControllerId) :
    ctrl ∈ setAdd subs ctrl := by
  unfold setAdd
  by_cases h : ctrl ∈ subs <;> simp [h]

/-- A set just updated with `setAdd` is nonempty. -/
lemma setAdd_length_pos (subs : List ControllerId) (ctrl : ControllerId) :
    1 ≤ (setAdd subs ctrl).length := by
  unfold setAdd
  by_cases h : ctrl ∈ subs
  · simp only [if_pos h]
    exact List.length_pos.mpr (List.ne_nil_of_mem h)
  · simp [if_neg h]

/-- The four guard facts packed in `validBroadcastBody`. -/
lemma valid_guards {body : BroadcastBody} (hv : validBroadcastBody body = true) :
    jsTruthyStr body.channelId = true ∧ jsTruthyStr body.profileId = true
      ∧ jsTruthyNum (body.location.bind RawLocation.lat) = true
      ∧ jsTruthyNum (body.location.bind RawLocation.lng) = true := by
  simp only [validBroadcastBody, Bool.and_eq_true] at hv
  exact ⟨hv.1.1.1, hv.1.1.2, hv.1.2, hv.2⟩

/-- A failed-validation publish returns 400 and touches nothing. -/
lemma publish_invalid (okSink : ControllerId → Bool) (body : BroadcastBody)
    (now : String) (reg : Registry) (hv : validBroadcastBody body = false) :
    isBadRequest (publish okSink body now reg).1 = true
      ∧ (publish okSink body now reg).2.1 = reg
      ∧ (publish okSink body now reg).2.2 = [] := by
  unfold publish
  unfold validBroadcastBody at hv
  by_cases h1 : jsTruthyStr body.channelId <;>
    by_cases h2 : jsTruthyStr body.profileId <;>
    by_cases h3 : jsTruthyNum (body.location.bind RawLocation.lat) <;>
    by_cases h4 : jsTruthyNum (body.location.bind RawLocation.lng) <;>
    simp_all [isBadRequest]

/-- A valid publish to an absent channel is a complete no-op returning a
count of zero. -/
lemma publish_absent (okSink : ControllerId → Bool) (body : BroadcastBody)
    (now : String) (reg : Registry) (hv : validBroadcastBody body = true)
    (habs : lookupChannel reg (body.channelId.getD "") = none) :
    publish okSink body now reg
      = (PublishResult.ok (body.channelId.getD "") 0, reg, []) := by
  obtain ⟨h1, h2, h3, h4⟩ := valid_guards hv
  simp [publish, h1, h2, h3, h4, habs]

/-- A valid publish to a present but empty channel set returns the count
zero and touches nothing. -/
lemma publish_present_empty (okSink : ControllerId → Bool) (body : BroadcastBody)
    (now : String) (reg : Registry) (hv : validBroadcastBody body = true)
    (hch : lookupChannel reg (body.channelId.getD "") = some []) :
    publish okSink body now reg
      = (PublishResult.ok (body.channelId.getD "") 0, reg, []) := by
  obtain ⟨h1, h2, h3, h4⟩ := valid_guards hv
  simp [publish, h1, h2, h3, h4, hch]

/-- A valid publish to a nonempty channel set: the reported count is the
size at lookup, the set is replaced by the sink-accepting survivors, and
the log holds one shared-frame push per subscriber in order. -/
lemma publish_present (okSink : ControllerId → Bool) (body : BroadcastBody)
    (now : String) (reg : Registry) (subs : List ControllerId)
    (hv : validBroadcastBody body = true)
    (hch : lookupChannel reg (body.channelId.getD "") = some subs)
    (hne : subs ≠ []) :
    publish okSink body now reg
      = (PublishResult.ok (body.channelId.getD "") subs.length,
         setChannel reg (body.channelId.getD "") (subs.filter okSink),
         subs.map (fun c => (c, Frame.position (broadcastEventOf body now)))) := by
  obtain ⟨h1, h2, h3, h4⟩ := valid_guards hv
  have hl : 0 < subs.length := List.length_pos.mpr hne
  simp [publish, h1, h2, h3, h4, hch, hl, fanout_log, fanout_survivors]

/-- Pushing one shared frame to each member of a duplicate-free set logs
the pair of a given member and the frame exactly once. -/
lemma count_pair_map_eq_one (f : Frame) (c : ControllerId) :
    ∀ subs : List ControllerId, subs.Nodup → c ∈ subs →
      ((subs.map (fun x => (x, f))).count (c, f)) = 1 := by
  intro subs
  induction subs with
  | nil => intro _ hc; cases hc
  | cons x rest ih =>
    intro hnd hc
    rw [List.map_cons, List.count_cons]
    rcases List.mem_cons.mp hc with rfl | hmem
    · have hx : c ∉ rest := (List.nodup_cons.mp hnd).1
      have hz : ((rest.map (fun y => (y, f))).count (c, f)) = 0 := by
        rw [List.count_eq_zero]
        intro hmm
        rw [List.mem_map] at hmm
        obtain ⟨y, hy, he⟩ := hmm
        obtain ⟨rfl, -⟩ : y = c ∧ f = f := by
          simpa [Prod.ext_iff] using he
        exact hx hy
      simp [hz]
    · have hne : ¬ x = c := by
        rintro rfl
        exact (List.nodup_cons.mp hnd).1 hmem
      have hne' : ¬ c = x := fun h => hne h.symm
      rw [ih (List.nodup_cons.mp hnd).2 hmem]
      simp [hne, hne', Prod.ext_iff]

/-- A valid broadcast request aimed at channel c3, used as concrete input
in witnesses. -/
def chanBody : BroadcastBody :=
  { channelId := some "c3", profileId := some "p1",
    location := some { lat := some 52, lng := some 13 } }

/-- A valid broadcast request aimed at the never-subscribed channel ghost,
used as concrete input in witnesses. -/
def ghostBody : BroadcastBody :=
  { channelId := some "ghost", profileId := some "p1",
    location := some { lat := some 52, lng := some 13 } }

/-- A broadcast request whose channelId, profileId and location are all
present, with numeric coordinates lying on the Greenwich meridian
(longitude zero). -/
def greenwichBody : BroadcastBody :=
  { channelId := some "c1", profileId := some "p1",
    location := some { lat := some 51, lng := some 0 } }

/-- C1: refuted by the code. Publishing a valid event to channel c1 whose
only subscriber's sink rejects the push deletes that subscriber from the
set, but the broadcast handler never deletes the emptied channel, so the
operation ends with the garbage entry (c1, empty set) still in the
registry — and visible to the enumerator with subscriber count zero —
contrary to the claimed invariant (and to the source's own comment that
channels auto-clean when the last subscriber disconnects, which only the
`cancel` path implements). -/
theorem publish_failed_push_leaves_empty_channel :
    (publish (fun _ => false) chanBody "t" [("c3", [0])]).2.1 = [("c3", [])]
    ∧ lookupChannel (publish (fun _ => false) chanBody "t" [("c3", [0])]).2.1 "c3"
        = some []
    ∧ listChannels (publish (fun _ => false) chanBody "t" [("c3", [0])]).2.1
        = [("c3", 0)]
    ∧ (publish (fun _ => false) chanBody "t" [("c3", [0])]).1
        = PublishResult.ok "c3" 1 := by
  decide

/-- C2: counterexample. A broadcast request whose channelId, profileId and
location (with numeric lat and lng) are all present is rejected with HTTP
400 when its longitude is 0, because the handler tests JS truthiness and
`0` is falsy; both the claimed "400 only if a field is missing" direction
and the claimed "all three present implies the publish proceeds with 200"
direction fail at this input. -/
theorem publish_rejects_zero_longitude :
    greenwichBody.channelId.isSome = true
    ∧ greenwichBody.profileId.isSome = true
    ∧ greenwichBody.location.isSome = true
    ∧ (greenwichBody.location.bind RawLocation.lat).isSome = true
    ∧ (greenwichBody.location.bind RawLocation.lng).isSome = true
    ∧ (publish (fun _ => true) greenwichBody "t" []).1
        = PublishResult.badRequest "location must have lat and lng" := by
  decide

/-- C2 (amended): the broadcast endpoint fails with HTTP 400 exactly when
one of the guard fields is JS-falsy — channelId or profileId absent or
empty, location absent, or its lat or lng absent or zero; on that failure
the registry is untouched and nothing is pushed; and whenever all the
guard fields are truthy the publish proceeds and returns 200 with
`published: true`. -/
theorem publish_validation_truthiness (okSink : ControllerId → Bool)
    (body : BroadcastBody) (now : String) (reg : Registry) :
    (isBadRequest (publish okSink body now reg).1 = true
        ↔ validBroadcastBody body = false)
    ∧ (validBroadcastBody body = false →
        (publish okSink body now reg).2.1 = reg
          ∧ (publish okSink body now reg).2.2 = [])
    ∧ (validBroadcastBody body = true →
        ∃ n, (publish okSink body now reg).1
          = PublishResult.ok (body.channelId.getD "") n) := by
  by_cases hv : validBroadcastBody body = true
  · have hv' : ¬ validBroadcastBody body = false := by simp [hv]
    refine ⟨?_, fun h => absurd h hv', fun _ => ?_⟩
    · cases hch : lookupChannel reg (body.channelId.getD "") with
      | none => simp [publish_absent okSink body now reg hv hch, isBadRequest, hv]
      | some subs =>
        rcases eq_or_ne subs [] with rfl | hne
        · simp [publish_present_empty okSink body now reg hv hch, isBadRequest, hv]
        · simp [publish_present okSink body now reg subs hv hch hne, isBadRequest, hv]
    · cases hch : lookupChannel reg (body.channelId.getD "") with
      | none => exact ⟨0, by rw [publish_absent okSink body now reg hv hch]⟩
      | some subs =>
        rcases eq_or_ne subs [] with rfl | hne
        · exact ⟨0, by rw [publish_present_empty okSink body now reg hv hch]⟩
        · exact ⟨subs.length, by rw [publish_present okSink body now reg subs hv hch hne]⟩
  · have hv0 : validBroadcastBody body = false := by
      cases h : validBroadcastBody body
      · rfl
      · exact absurd h hv
    obtain ⟨hb, hr, hl⟩ := publish_invalid okSink body now reg hv0
    exact ⟨by simp [hb, hv0], fun _ => ⟨hr, hl⟩, fun h => absurd h hv⟩

/-- C3: publishing a valid event to a channel id with no registry entry
returns 200 with subscriberCount 0, pushes nothing, leaves the registry
exactly as it was, and the channel id stays invisible to the enumerator. -/
theorem publish_unknown_channel_noop (okSink : ControllerId → Bool)
    (body : BroadcastBody) (now : String) (reg : Registry)
    (hv : validBroadcastBody body = true)
    (habs : lookupChannel reg (body.channelId.getD "") = none) :
    publish okSink body now reg
      = (PublishResult.ok (body.channelId.getD "") 0, reg, [])
    ∧ (body.channelId.getD "")
        ∉ (listChannels (publish okSink body now reg).2.1).map Prod.fst := by
  have he := publish_absent okSink body now reg hv habs
  refine ⟨he, ?_⟩
  rw [he]
  simpa [listChannels_keys] using
    not_mem_keys_of_lookupChannel_eq_none reg _ habs

theorem publish_unknown_channel_noop_witness :
    validBroadcastBody ghostBody = true
    ∧ lookupChannel [("c2", [5])] "ghost" = none
    ∧ (publish (fun _ => true) ghostBody "t" [("c2", [5])]
        = (PublishResult.ok "ghost" 0, [("c2", [5])], [])
      ∧ "ghost" ∉ (listChannels
          (publish (fun _ => true) ghostBody "t" [("c2", [5])]).2.1).map Prod.fst) :=
  ⟨by decide, by decide,
   publish_unknown_channel_noop (fun _ => true) ghostBody "t" [("c2", [5])]
     (by decide) (by decide)⟩

/-- C4: a valid publish to a channel whose set holds the connections `subs`
logs exactly one push per connection, in set order, all carrying the one
shared encoded frame of the event; with the set duplicate-free each
connection's frame is pushed exactly once. -/
theorem publish_encodes_once_and_pushes_each (okSink : ControllerId → Bool)
    (body : BroadcastBody) (now : String) (reg : Registry)
    (subs : List ControllerId)
    (hv : validBroadcastBody body = true)
    (hch : lookupChannel reg (body.channelId.getD "") = some subs)
    (hnd : subs.Nodup) :
    (publish okSink body now reg).2.2
        = subs.map (fun c => (c, Frame.position (broadcastEventOf body now)))
    ∧ ∀ c ∈ subs,
        ((publish okSink body now reg).2.2).count
            (c, Frame.position (broadcastEventOf body now)) = 1 := by
  have hlog : (publish okSink body now reg).2.2
      = subs.map (fun c => (c, Frame.position (broadcastEventOf body now))) := by
    rcases eq_or_ne subs [] with rfl | hne
    · simp [publish_present_empty okSink body now reg hv hch]
    · simp [publish_present okSink body now reg subs hv hch hne]
  refine ⟨hlog, fun c hc => ?_⟩
  rw [hlog]
  exact count_pair_map_eq_one _ c subs hnd hc

theorem publish_encodes_once_and_pushes_each_witness :
    validBroadcastBody chanBody = true
    ∧ lookupChannel [("c3", [0, 1])] "c3" = some [0, 1]
    ∧ List.Nodup [0, 1]
    ∧ ((publish (fun _ => true) chanBody "t" [("c3", [0, 1])]).2.2
        = [0, 1].map (fun c => (c, Frame.position (broadcastEventOf chanBody "t")))
      ∧ ∀ c ∈ [0, 1],
          ((publish (fun _ => true) chanBody "t" [("c3", [0, 1])]).2.2).count
              (c, Frame.position (broadcastEventOf chanBody "t")) = 1) :=
  ⟨by decide, by decide, by decide,
   publish_encodes_once_and_pushes_each (fun _ => true) chanBody "t" [("c3", [0, 1])]
     [0, 1] (by decide) (by decide) (by decide)⟩

/-- C5: the broadcast endpoint reports the subscriber count observed at
lookup time, before any removal triggered by this publish: for any sink
behavior `okSink` — including pushes failing — the count equals the length
of the set found at lookup. -/
theorem publish_reports_count_at_lookup (okSink : ControllerId → Bool)
    (body : BroadcastBody) (now : String) (reg : Registry)
    (subs : List ControllerId)
    (hv : validBroadcastBody body = true)
    (hch : lookupChannel reg (body.channelId.getD "") = some subs) :
    (publish okSink body now reg).1
      = PublishResult.ok (body.channelId.getD "") subs.length := by
  rcases eq_or_ne subs [] with rfl | hne
  · simp [publish_present_empty okSink body now reg hv hch]
  · simp [publish_present okSink body now reg subs hv hch hne]

theorem publish_reports_count_at_lookup_witness :
    validBroadcastBody chanBody = true
    ∧ lookupChannel [("c3", [0, 1])] "c3" = some [0, 1]
    ∧ (publish (fun _ => false) chanBody "t" [("c3", [0, 1])]).1
        = PublishResult.ok "c3" 2 :=
  ⟨by decide, by decide,
   publish_reports_count_at_lookup (fun _ => false) chanBody "t" [("c3", [0, 1])]
     [0, 1] (by decide) (by decide)⟩

/-- C6: when a push during fan-out is rejected, that connection is removed
from the channel's set (only sink-accepting connections survive), every
connection of the set — including those after a failing one — still gets
its push, and the failure is invisible to the publisher: the response is
still 200 with `published: true` and the pre-removal count. -/
theorem publish_push_failure_silent_removal (okSink : ControllerId → Bool)
    (body : BroadcastBody) (now : String) (reg : Registry)
    (subs : List ControllerId)
    (hv : validBroadcastBody body = true)
    (hch : lookupChannel reg (body.channelId.getD "") = some subs) :
    lookupChannel (publish okSink body now reg).2.1 (body.channelId.getD "")
        = some (subs.filter okSink)
    ∧ (∀ c ∈ subs,
        (c, Frame.position (broadcastEventOf body now))
          ∈ (publish okSink body now reg).2.2)
    ∧ (∀ c ∈ subs, okSink c = false →
        c ∉ ((lookupChannel (publish okSink body now reg).2.1
              (body.channelId.getD "")).getD []))
    ∧ (publish okSink body now reg).1
        = PublishResult.ok (body.channelId.getD "") subs.length := by
  rcases eq_or_ne subs [] with rfl | hne
  · have he := publish_present_empty okSink body now reg hv hch
    refine ⟨?_, ?_, ?_, ?_⟩ <;> simp [he, hch]
  · have he := publish_present okSink body now reg subs hv hch hne
    have hset : lookupChannel (publish okSink body now reg).2.1
        (body.channelId.getD "") = some (subs.filter okSink) := by
      rw [he]
      exact lookupChannel_setChannel_self reg _ _ (by simp [hch])
    refine ⟨hset, ?_, ?_, ?_⟩
    · intro c hc
      rw [he]
      simp only [List.mem_map]
      exact ⟨c, hc, rfl⟩
    · intro c hc hfail
      rw [hset]
      simp [List.mem_filter, hfail]
    · rw [he]

theorem publish_push_failure_silent_removal_witness :
    validBroadcastBody chanBody = true
    ∧ lookupChannel [("c3", [0, 1])] "c3" = some [0, 1]
    ∧ (lookupChannel
          (publish (fun c => c == 1) chanBody "t" [("c3", [0, 1])]).2.1 "c3"
        = some ([0, 1].filter (fun c => c == 1))
      ∧ (∀ c ∈ [0, 1],
          (c, Frame.position (broadcastEventOf chanBody "t"))
            ∈ (publish (fun c => c == 1) chanBody "t" [("c3", [0, 1])]).2.2)
      ∧ (∀ c ∈ [0, 1], (fun c : ControllerId => c == 1) c = false →
          c ∉ ((lookupChannel
              (publish (fun c => c == 1) chanBody "t" [("c3", [0, 1])]).2.1
              "c3").getD []))
      ∧ (publish (fun c => c == 1) chanBody "t" [("c3", [0, 1])]).1
          = PublishResult.ok "c3" 2) :=
  ⟨by decide, by decide,
   publish_push_failure_silent_removal (fun c => c == 1) chanBody "t"
     [("c3", [0, 1])] [0, 1] (by decide) (by decide)⟩

/-- C7: opening a subscription pushes exactly one frame to the newly
created connection — the welcome frame, with event name `connected`, never
a `position` frame (so it precedes any fan-out frame the fresh connection
may later receive) — and its payload carries the requested channel id, the
channel's resulting subscriber count (which includes the new connection
itself, hence is at least 1), and the issue timestamp. -/
theorem subscribe_pushes_one_welcome_frame (reg : Registry) (cid : String)
    (ctrl : ControllerId) (now : String) :
    (subscribe reg cid ctrl now).2
        = [(ctrl, Frame.connected cid
            ((lookupChannel (subscribe reg cid ctrl now).1 cid).getD []).length now)]
    ∧ ctrl ∈ (lookupChannel (subscribe reg cid ctrl now).1 cid).getD []
    ∧ 1 ≤ ((lookupChannel (subscribe reg cid ctrl now).1 cid).getD []).length
    ∧ ∀ p ∈ (subscribe reg cid ctrl now).2, ∀ e, p.2 ≠ Frame.position e := by
  have hl : lookupChannel (subscribe reg cid ctrl now).1 cid
      = some (setAdd (getOrCreateChannel reg cid).2 ctrl) := by
    show lookupChannel
      (setChannel (getOrCreateChannel reg cid).1 cid
        (setAdd (getOrCreateChannel reg cid).2 ctrl)) cid = _
    apply lookupChannel_setChannel_self
    unfold getOrCreateChannel
    cases h : lookupChannel reg cid with
    | some subs => simp [h]
    | none => simp [h, lookupChannel_append_self reg cid [] h]
  refine ⟨?_, ?_, ?_, ?_⟩
  · rw [hl]
    rfl
  · rw [hl]
    exact mem_setAdd_self _ _
  · rw [hl]
    exact setAdd_length_pos _ _
  · intro p hp e
    have hps : p = (ctrl, Frame.connected cid
        (setAdd (getOrCreateChannel reg cid).2 ctrl).length now) := by
      simpa [subscribe] using hp
    simp [hps]

/-- C9: for every distance function, position, candidate list and radius,
`findNearby` returns exactly the records of the candidates whose rounded
distance lies within the radius (as a permutation of that filtered map, so
one record per qualifying candidate and no others); every returned record
satisfies the radius bound and is the record built from some candidate
(its profileId and location with the rounded distance, label and status);
and the result is sorted by `distanceMeters` in non-decreasing order. -/
theorem findNearby_filter_sort_spec (dist : GeoPoint → GeoPoint → ℚ)
    (myPosition : GeoPoint) (candidates : List ProfileLocation)
    (maxRadiusMeters bleRangeMeters : ℚ) :
    List.Perm (findNearby dist myPosition candidates maxRadiusMeters bleRangeMeters)
      ((candidates.map (mkPresenceRecord dist myPosition bleRangeMeters maxRadiusMeters)).filter
        (fun r => (r.distanceMeters : ℚ) ≤ maxRadiusMeters))
    ∧ (∀ r ∈ findNearby dist myPosition candidates maxRadiusMeters bleRangeMeters,
        (r.distanceMeters : ℚ) ≤ maxRadiusMeters)
    ∧ (∀ r ∈ findNearby dist myPosition candidates maxRadiusMeters bleRangeMeters,
        ∃ c ∈ candidates,
          r = mkPresenceRecord dist myPosition bleRangeMeters maxRadiusMeters c)
    ∧ (findNearby dist myPosition candidates maxRadiusMeters bleRangeMeters).Pairwise
        (fun a b => a.distanceMeters ≤ b.distanceMeters) := by
  unfold findNearby
  refine ⟨List.mergeSort_perm _ _, ?_, ?_, ?_⟩
  · intro r hr
    rw [List.mem_mergeSort] at hr
    exact of_decide_eq_true (List.mem_filter.mp hr).2
  · intro r hr
    rw [List.mem_mergeSort] at hr
    have hm := (List.mem_filter.mp hr).1
    rw [List.mem_map] at hm
    obtain ⟨c, hc, rfl⟩ := hm
    exact ⟨c, hc, rfl⟩
  · have h := @List.sorted_mergeSort PresenceRecord
      (fun a b : PresenceRecord => decide (a.distanceMeters ≤ b.distanceMeters))
      (fun a b c h1 h2 =>
        decide_eq_true (le_trans (of_decide_eq_true h1) (of_decide_eq_true h2)))
      (fun a b => by
        rcases le_total a.distanceMeters b.distanceMeters with h | h <;> simp [h])
      ((candidates.map (mkPresenceRecord dist myPosition bleRangeMeters maxRadiusMeters)).filter
        (fun r => (r.distanceMeters : ℚ) ≤ maxRadiusMeters))
    exact h.imp (fun hab => of_decide_eq_true hab)

/-- C10: revoking a consent record stamps `revokedAt`, clears both the
locationTracking and bleDiscovery flags, preserves the record's other
fields (profileId, grantedAt), and the revoked record never validates. -/
theorem revokeConsent_invalidates (c : LocationConsent) (now : String) :
    (revokeConsent c now).revokedAt = some now
    ∧ (revokeConsent c now).locationTracking = false
    ∧ (revokeConsent c now).bleDiscovery = false
    ∧ (revokeConsent c now).profileId = c.profileId
    ∧ (revokeConsent c now).grantedAt = c.grantedAt
    ∧ isConsentValid (revokeConsent c now) = false := by
  refine ⟨rfl, rfl, rfl, rfl, rfl, ?_⟩
  unfold isConsentValid revokeConsent jsTruthyStr
  by_cases h : now = "" <;> simp [h]

end Proximity
